import Mathlib

/-!
Verification development for the webcam-viewer application
(sdroege/rustfest-rome18-gtk-gst-workshop).

The repository contains two revisions of the same application:
an older one (src/main.rs with src/gstreamer.rs, where the GStreamer
logic lives in methods of the UI `App` struct) and a newer one
(src/pipeline.rs with src/app.rs, where the media logic lives in a
dedicated `Pipeline` struct).  Both are embedded below where the claims
refer to them.

The embedding models the GStreamer world shallowly: a dynamic recording
bin is a record carrying its element state, filesink location and
link status; the gst pipeline is the list of dynamic bins currently
added to it plus the bookkeeping the Rust code keeps (the
RefCell recording_bin slot, pending idle probes, pending async EOS
sends, forwarded-EOS messages queued on the bus).  External effects
that can fail (parsing a bin description, a state change, a pad link,
file creation, sample conversion, a file write) are failure-injected
through explicit environment records, mirroring the exact control flow
of the source.
-/

namespace WebCam

/-- Snapshot output formats, from src/settings.rs (enum SnapshotFormat). -/
inductive SnapshotFormat
  | JPEG
  | PNG
deriving DecidableEq, Repr

/-- Recording output formats, from src/settings.rs (enum RecordFormat). -/
inductive RecordFormat
  | H264Mp4
  | Vp8WebM
deriving DecidableEq, Repr

/-- The Settings struct from src/settings.rs.  PathBuf fields are modelled
as strings; timer_length is the u32 field (the UI limits it to 0..=15). -/
structure Settings where
  snapshot_directory : String
  snapshot_format : SnapshotFormat
  timer_length : Nat
  record_directory : String
  record_format : RecordFormat
deriving DecidableEq, Repr

/-- A local date-time as used through chrono's Local::now(), reduced to the
six fields the format strings of this program consume. -/
structure DateTime where
  year : Nat
  month : Nat
  day : Nat
  hour : Nat
  minute : Nat
  second : Nat
deriving DecidableEq, Repr

/-- Zero-pad a number to two digits, as chrono does for the numeric
directives m, d, H, M and S. -/
def pad2 (n : Nat) : String :=
  if n < 10 then "0" ++ toString n else toString n

/-- Zero-pad a year to four digits, as chrono does for the Y directive. -/
def pad4 (n : Nat) : String :=
  if n < 10 then "000" ++ toString n
  else if n < 100 then "00" ++ toString n
  else if n < 1000 then "0" ++ toString n
  else toString n

/-- One percent-directive of chrono's strftime-style formatter, restricted
to the directives appearing in this program's format strings. -/
def fmtDirective (dt : DateTime) (c : Char) : String :=
  if c = 'Y' then pad4 dt.year
  else if c = 'm' then pad2 dt.month
  else if c = 'd' then pad2 dt.day
  else if c = 'H' then pad2 dt.hour
  else if c = 'M' then pad2 dt.minute
  else if c = 'S' then pad2 dt.second
  else ""

/-- chrono-style formatting over the characters of a format string:
a percent sign consumes the following directive character, every other
character is copied verbatim. -/
def strftimeChars (dt : DateTime) : List Char → String
  | [] => ""
  | '%' :: c :: rest => fmtDirective dt c ++ strftimeChars dt rest
  | c :: rest => String.singleton c ++ strftimeChars dt rest

/-- chrono's DateTime::format rendered eagerly to a string. -/
def strftime (dt : DateTime) (fmt : String) : String :=
  strftimeChars dt fmt.data

/-- PathBuf::push of one component, modelled with a slash separator. -/
def pathPush (dir component : String) : String :=
  dir ++ "/" ++ component

/-- Snapshot file extension chosen in Pipeline::take_snapshot
(src/pipeline.rs lines 160-163). -/
def snapshot_extension : SnapshotFormat → String
  | SnapshotFormat.JPEG => "jpg"
  | SnapshotFormat.PNG => "png"

/-- Recording file extension chosen in Pipeline::start_recording
(src/pipeline.rs lines 234-237). -/
def record_extension : RecordFormat → String
  | RecordFormat.H264Mp4 => "mp4"
  | RecordFormat.Vp8WebM => "webm"

/-- The snapshot file path built in Pipeline::take_snapshot
(src/pipeline.rs lines 177-184): the configured directory, pushed with
format!("SCHEMA.EXT",) where SCHEMA is now.format("Snapshot %Y-%m-%d %H-%M-%S"). -/
def snapshot_filename (settings : Settings) (now : DateTime) : String :=
  pathPush settings.snapshot_directory
    (strftime now "Snapshot %Y-%m-%d %H-%M-%S" ++ "." ++
      snapshot_extension settings.snapshot_format)

/-- The recording file path built in Pipeline::start_recording
(src/pipeline.rs lines 246-252), using now.format("Recording %Y-%m-%d %H-%M-%S"). -/
def recording_filename (settings : Settings) (now : DateTime) : String :=
  pathPush settings.record_directory
    (strftime now "Recording %Y-%m-%d %H-%M-%S" ++ "." ++
      record_extension settings.record_format)

/-- Filename pattern as the specification words it (section 6: snapshot files
named "Snapshot YYYY-MM-DD HH:MM:SS.EXT" with colons between the time
components), for comparison with the code's snapshot_filename. -/
def spec_snapshot_filename (settings : Settings) (now : DateTime) : String :=
  pathPush settings.snapshot_directory
    ("Snapshot " ++ pad4 now.year ++ "-" ++ pad2 now.month ++ "-" ++ pad2 now.day
      ++ " " ++ pad2 now.hour ++ ":" ++ pad2 now.minute ++ ":" ++ pad2 now.second
      ++ "." ++ snapshot_extension settings.snapshot_format)

theorem strftime_snapshot_eq (now : DateTime) :
    strftime now "Snapshot %Y-%m-%d %H-%M-%S" =
      "Snapshot " ++ (pad4 now.year ++ ("-" ++ (pad2 now.month ++ ("-" ++ (pad2 now.day ++
        (" " ++ (pad2 now.hour ++ ("-" ++ (pad2 now.minute ++ ("-" ++ pad2 now.second)))))))))) := by
  have h : strftime now "Snapshot %Y-%m-%d %H-%M-%S" =
      "Snapshot " ++ (pad4 now.year ++ ("-" ++ (pad2 now.month ++ ("-" ++ (pad2 now.day ++
        (" " ++ (pad2 now.hour ++ ("-" ++ (pad2 now.minute ++ ("-" ++ (pad2 now.second ++ ""))))))))))) :=
    rfl
  rw [h, String.append_empty]

theorem strftime_recording_eq (now : DateTime) :
    strftime now "Recording %Y-%m-%d %H-%M-%S" =
      "Recording " ++ (pad4 now.year ++ ("-" ++ (pad2 now.month ++ ("-" ++ (pad2 now.day ++
        (" " ++ (pad2 now.hour ++ ("-" ++ (pad2 now.minute ++ ("-" ++ pad2 now.second)))))))))) := by
  have h : strftime now "Recording %Y-%m-%d %H-%M-%S" =
      "Recording " ++ (pad4 now.year ++ ("-" ++ (pad2 now.month ++ ("-" ++ (pad2 now.day ++
        (" " ++ (pad2 now.hour ++ ("-" ++ (pad2 now.minute ++ ("-" ++ (pad2 now.second ++ ""))))))))))) :=
    rfl
  rw [h, String.append_empty]

/-- GStreamer element states, reduced to the values this program uses. -/
inductive GstState
  | Null
  | Playing
deriving DecidableEq, Repr

/-- A dynamically created recording bin: its identity (standing for the
gst object), its element state, the filesink location property set on it,
and whether its sink pad is currently linked to a tee source pad. -/
structure RecBin where
  id : Nat
  gstState : GstState
  location : String
  linkedToTee : Bool
deriving DecidableEq, Repr

/-- State of the Pipeline struct of src/pipeline.rs together with the parts
of the gst pipeline object it drives:
bins, the dynamic recording bins currently added to the gst pipeline;
recordingBin, the RefCell recording_bin slot (by bin identity);
pendingIdleProbe, tee source pads with an installed IDLE probe
(installed by stop_recording, not yet fired);
pendingEos, bins whose EOS send was scheduled through call_async by the
idle probe but not yet performed;
eosQueued, bins that received the EOS event, finished draining and posted
the forwarded EOS message that the bus has not yet delivered;
nextId, a supply of fresh bin identities. -/
structure PipelineState where
  bins : List RecBin
  recordingBin : Option Nat
  pendingIdleProbe : List Nat
  pendingEos : List Nat
  eosQueued : List Nat
  nextId : Nat
deriving DecidableEq, Repr

/-- Failure injection for Pipeline::start_recording: whether
gst::parse_bin_from_description succeeds, whether bin.set_state(Playing)
succeeds, and whether srcpad.link(sinkpad) succeeds. -/
structure StartEnv where
  parseOk : Bool
  playOk : Bool
  linkOk : Bool
deriving DecidableEq, Repr

/-- Observable effects on torn-down or removed bins, used to state what
start_recording's error path and the forwarded-EOS handler do. -/
inductive RecEffect
  | binRemoved (id : Nat)
  | binSetNull (id : Nat)
deriving DecidableEq, Repr

/-- Pipeline::start_recording (src/pipeline.rs lines 231-296).  Mirrors the
source order: choose description and extension from the record format;
parse the bin (fail: return the error, nothing changed); build the file
name and set the filesink location; set the bin to Playing (fail: return
the error, the bin was never added); add the bin to the pipeline; request
a tee pad and link (fail: remove the bin again, set it to Null, return the
error); finally store the bin in the recording_bin slot.  Note that the
function never inspects the recording_bin slot before overwriting it. -/
def Pipeline.start_recording (env : StartEnv) (settings : Settings) (now : DateTime)
    (p : PipelineState) : Except String Unit × PipelineState × List RecEffect :=
  if env.parseOk = false then
    (Except.error "Failed to create recording pipeline", p, [])
  else
    let filename := recording_filename settings now
    let bin : RecBin :=
      { id := p.nextId, gstState := GstState.Null, location := filename, linkedToTee := false }
    if env.playOk = false then
      (Except.error "Failed to start recording", p, [])
    else
      let binPlaying : RecBin := { bin with gstState := GstState.Playing }
      if env.linkOk = false then
        (Except.error "Failed to link recording bin",
          { p with nextId := p.nextId + 1 },
          [RecEffect.binRemoved bin.id, RecEffect.binSetNull bin.id])
      else
        (Except.ok (),
          { p with
              bins := p.bins ++ [{ binPlaying with linkedToTee := true }],
              recordingBin := some bin.id,
              nextId := p.nextId + 1 },
          [])

/-- Pipeline::stop_recording (src/pipeline.rs lines 299-353).  Takes the
bin out of the recording_bin slot (returning if it was empty), finds the
tee source pad peer of the bin's sink pad (returning if the bin is not
linked), and installs an IDLE probe on that pad.  It removes nothing
from the pipeline and changes no element state. -/
def Pipeline.stop_recording (p : PipelineState) : PipelineState :=
  match p.recordingBin with
  | none => p
  | some id =>
    match p.bins.find? (fun b => b.id = id) with
    | none => { p with recordingBin := none }
    | some b =>
      if b.linkedToTee then
        { p with recordingBin := none, pendingIdleProbe := id :: p.pendingIdleProbe }
      else { p with recordingBin := none }

/-- The asynchronous events completing a recording teardown, plus the two
session operations, as one event alphabet.  There is deliberately no
timeout event: nothing in the source is timer driven. -/
inductive RecEvent
  | startRec (env : StartEnv) (settings : Settings) (now : DateTime)
  | stopRec
  | idleProbe (id : Nat)
  | asyncEos (id : Nat)
  | eosForwarded (id : Nat)
deriving DecidableEq, Repr

/-- One step of the recording subsystem.
idleProbe: the IDLE probe installed by stop_recording fires, unlinks the
tee source pad from the bin and schedules the EOS send via call_async
(src/pipeline.rs lines 328-352).
asyncEos: the scheduled closure runs and sends the EOS event into the
bin's sink pad; once drained the bin posts the forwarded EOS message
(lines 344-347 and the message-forward setup).
eosForwarded: the bus delivers the GstBinForwarded EOS message whose
source is that bin; Pipeline::on_pipeline_message removes the bin from
the pipeline and sets its state to Null (lines 386-426). -/
def recStep (p : PipelineState) : RecEvent → PipelineState × List RecEffect
  | RecEvent.startRec env settings now =>
    let r := Pipeline.start_recording env settings now p
    (r.2.1, r.2.2)
  | RecEvent.stopRec => (Pipeline.stop_recording p, [])
  | RecEvent.idleProbe id =>
    if id ∈ p.pendingIdleProbe then
      ({ p with
          bins := p.bins.map (fun b => if b.id = id then { b with linkedToTee := false } else b),
          pendingIdleProbe := p.pendingIdleProbe.erase id,
          pendingEos := id :: p.pendingEos }, [])
    else (p, [])
  | RecEvent.asyncEos id =>
    if id ∈ p.pendingEos then
      ({ p with
          pendingEos := p.pendingEos.erase id,
          eosQueued := id :: p.eosQueued }, [])
    else (p, [])
  | RecEvent.eosForwarded id =>
    if id ∈ p.eosQueued then
      ({ p with
          eosQueued := p.eosQueued.erase id,
          bins := p.bins.filter (fun b => b.id ≠ id) },
        [RecEffect.binRemoved id, RecEffect.binSetNull id])
    else (p, [])

/-- A bin with the given identity is currently added to the gst pipeline. -/
def hasBin (p : PipelineState) (id : Nat) : Prop :=
  ∃ b ∈ p.bins, b.id = id

instance (p : PipelineState) (id : Nat) : Decidable (hasBin p id) := by
  unfold hasBin
  infer_instance

/-- Failure injection for Pipeline::take_snapshot: whether the sink's
last-sample property currently holds a sample, whether File::create
succeeds, whether the asynchronous sample conversion succeeds, and
whether file.write_all succeeds. -/
structure SnapEnv where
  lastSample : Bool
  fileCreateOk : Bool
  convertOk : Bool
  writeOk : Bool
deriving DecidableEq, Repr

/-- Observable effects of the snapshot path, in the order they happen. -/
inductive SnapEffect
  | fileCreated (path : String)
  | conversionRequested
  | busWarning (text : String)
  | fileWritten (path : String)
deriving DecidableEq, Repr

/-- Pipeline::take_snapshot (src/pipeline.rs lines 154-228).  Mirrors the
source order: load settings and pick caps and extension; read the sink's
last-sample property and return Ok if none is available; build the file
name; File::create the destination (on failure return the error); request
the asynchronous conversion; the completion callback posts a bus warning
on conversion failure, otherwise writes the converted bytes and posts a
bus warning if the write fails.  The function itself returns Ok as soon
as the conversion is requested. -/
def Pipeline.take_snapshot (env : SnapEnv) (settings : Settings) (now : DateTime) :
    Except String Unit × List SnapEffect :=
  if env.lastSample = false then
    (Except.ok (), [])
  else
    let filename := snapshot_filename settings now
    if env.fileCreateOk = false then
      (Except.error ("Failed to create snapshot file " ++ filename), [])
    else
      let callbackEffects :=
        if env.convertOk = false then
          [SnapEffect.busWarning "Failed to convert sample"]
        else if env.writeOk = false then
          [SnapEffect.busWarning ("Failed to write snapshot file " ++ filename)]
        else
          [SnapEffect.fileWritten filename]
      (Except.ok (),
        SnapEffect.fileCreated filename :: SnapEffect.conversionRequested :: callbackEffects)

/-- State of the older revision's App (src/main.rs, src/gstreamer.rs):
whether the pipeline was created, the record-bin bins in it, the record
toggle button's checked flag, and the installed idle probes. -/
structure GstAppState where
  hasPipeline : Bool
  bins : List RecBin
  recordButtonChecked : Bool
  pendingIdleProbe : List Nat
  nextId : Nat
deriving DecidableEq, Repr

/-- The recording file path built in App::start_recording of the older
revision (src/gstreamer.rs lines 205-211), whose format string uses
colons: "Recording %Y-%m-%d %H:%M:%S". -/
def gst_recording_filename (settings : Settings) (now : DateTime) : String :=
  pathPush settings.record_directory
    (strftime now "Recording %Y-%m-%d %H:%M:%S" ++ "." ++
      record_extension settings.record_format)

/-- App::start_recording of the older revision (src/gstreamer.rs lines
167-259).  Unlike Pipeline::start_recording it begins with a guard: if the
pipeline already contains an element named record-bin, it resets the
record toggle's checked state and returns without touching the pipeline.
Otherwise it proceeds as the newer revision does (parse, set location,
Playing, add, link with rollback on failure), except that errors are shown
as dialogs instead of being returned. -/
def GstApp.start_recording (env : StartEnv) (settings : Settings) (now : DateTime)
    (s : GstAppState) : GstAppState :=
  if s.hasPipeline = false then s
  else if s.bins.isEmpty = false then
    { s with recordButtonChecked := false }
  else if env.parseOk = false then s
  else if env.playOk = false then s
  else
    let filename := gst_recording_filename settings now
    let bin : RecBin :=
      { id := s.nextId, gstState := GstState.Playing, location := filename, linkedToTee := false }
    if env.linkOk = false then
      { s with nextId := s.nextId + 1 }
    else
      { s with
          bins := s.bins ++ [{ bin with linkedToTee := true }],
          nextId := s.nextId + 1 }

/-- Outcome of a call that may panic (Rust expect). -/
inductive StopOutcome
  | ok
  | panics (msg : String)
deriving DecidableEq, Repr

/-- App::stop_recording of the older revision (src/gstreamer.rs lines
261-321).  If there is no pipeline it returns; otherwise it looks up the
record-bin by name and calls .expect on the result, so the call panics
when no recording bin exists.  With a bin present it installs the IDLE
probe (or returns if the bin's sink pad has no peer). -/
def GstApp.stop_recording (s : GstAppState) : StopOutcome × GstAppState :=
  if s.hasPipeline = false then (StopOutcome.ok, s)
  else
    match s.bins with
    | [] => (StopOutcome.panics "Pipeline had no recording bin", s)
    | b :: _ =>
      if b.linkedToTee then
        (StopOutcome.ok, { s with pendingIdleProbe := b.id :: s.pendingIdleProbe })
      else
        (StopOutcome.ok, s)

/-- State seen by App::on_record_state_changed of the newer revision
(src/app.rs lines 360-374): the Pipeline state, the record toggle
button's active flag, and the error dialogs shown so far. -/
structure AppRecState where
  p : PipelineState
  recordActive : Bool
  dialogs : List String
deriving DecidableEq, Repr

/-- HeaderBar::set_record_active(false) (src/header_bar.rs lines 79-81):
setting the toggle inactive emits toggled when it was active, which
triggers the record action and re-enters on_record_state_changed with
RecordState::Idle, i.e. Pipeline::stop_recording. -/
def App.set_record_inactive (a : AppRecState) : AppRecState :=
  if a.recordActive then
    { a with recordActive := false, p := Pipeline.stop_recording a.p }
  else a

/-- The record half of the app layer (src/app.rs lines 360-374): on
Recording it calls Pipeline::start_recording and, on error, shows a
non-fatal dialog and resets the record toggle; on Idle it calls
Pipeline::stop_recording. -/
def App.on_record_state_changed (env : StartEnv) (settings : Settings) (now : DateTime)
    (recording : Bool) (a : AppRecState) : AppRecState × List RecEffect :=
  if recording then
    match Pipeline.start_recording env settings now a.p with
    | (Except.error msg, p2, eff) =>
      (App.set_record_inactive
        { a with p := p2,
                 dialogs := a.dialogs ++ ["Failed to start recording: " ++ msg] }, eff)
    | (Except.ok _, p2, eff) => ({ a with p := p2 }, eff)
  else
    ({ a with p := Pipeline.stop_recording a.p }, [])

/-- The snapshot action's state values (src/app.rs lines 102-106). -/
inductive SnapshotState
  | Idle
  | TimerRunning
deriving DecidableEq, Repr

/-- State seen by the snapshot half of the app layer (src/app.rs):
timer is the RefCell holding the live SnapshotTimer's remaining count;
overlayVisible and overlayText mirror the countdown overlay;
snapshotActive mirrors the snapshot toggle button; snapshotsTaken counts
calls of Pipeline::take_snapshot; timersCreated counts SnapshotTimer::new
calls and overlayShownCount counts set_label_visible(true) calls (ghost
instrumentation making "never" claims statable). -/
structure TimerAppState where
  timer : Option Nat
  overlayVisible : Bool
  overlayText : String
  snapshotActive : Bool
  snapshotsTaken : Nat
  timersCreated : Nat
  overlayShownCount : Nat
deriving DecidableEq, Repr

/-- SnapshotTimer::tick (src/app.rs lines 88-93): asserts remaining > 0,
decrements it and returns the new value; none models the assertion
failure. -/
def SnapshotTimer.tick (remaining : Nat) : Option Nat :=
  if remaining > 0 then some (remaining - 1) else none

/-- The Idle branch of App::on_snapshot_state_changed (src/app.rs lines
289-294): drop the timer, hide the overlay. -/
def onSnapshotIdle (s : TimerAppState) : TimerAppState :=
  { s with timer := none, overlayVisible := false }

/-- HeaderBar::set_snapshot_active(false) (src/header_bar.rs lines 75-77):
when the toggle is active this unchecks it, which emits toggled, triggers
the snapshot action and re-enters on_snapshot_state_changed with Idle;
when it is already inactive nothing happens. -/
def setSnapshotInactive (s : TimerAppState) : TimerAppState :=
  if s.snapshotActive then
    onSnapshotIdle { s with snapshotActive := false }
  else s

/-- App::on_snapshot_state_changed (src/app.rs lines 285-356), with the
timer length read from the settings passed in.  Idle: stop any timer and
hide the overlay.  TimerRunning with length zero: reset the toggle (which
re-enters with Idle) and take a snapshot immediately.  TimerRunning with
positive length: show the overlay with the length as text and store a new
SnapshotTimer with that remaining count. -/
def onSnapshotStateChanged (timerLength : Nat) (st : SnapshotState) (s : TimerAppState) :
    TimerAppState :=
  match st with
  | SnapshotState.Idle => onSnapshotIdle s
  | SnapshotState.TimerRunning =>
    if timerLength = 0 then
      let s1 := setSnapshotInactive s
      { s1 with snapshotsTaken := s1.snapshotsTaken + 1 }
    else
      let s1 := { s with
                    overlayVisible := true,
                    overlayShownCount := s.overlayShownCount + 1,
                    overlayText := toString timerLength }
      { s1 with timer := some timerLength, timersCreated := s1.timersCreated + 1 }

/-- The remaining-reached-zero branch of the tick closure (src/app.rs
lines 329-347): hide the overlay, drop the timer, uncheck the snapshot
toggle (re-entering the handler with Idle) and take the snapshot. -/
def tickFire (s : TimerAppState) : TimerAppState :=
  let s1 := { s with overlayVisible := false }
  let s2 := { s1 with timer := none }
  let s3 := setSnapshotInactive s2
  { s3 with snapshotsTaken := s3.snapshotsTaken + 1 }

/-- The tick closure installed with gtk::timeout_add (src/app.rs lines
319-352).  It reads the timer from the RefCell: when no timer exists it
substitutes 0 for the remaining count (the unwrap_or(0)), which runs the
fire branch; with a timer it calls SnapshotTimer::tick (whose assertion
failure propagates as none), stores the decremented count back, and either
fires (remaining 0) or updates the overlay text. -/
def onTick (s : TimerAppState) : Option TimerAppState :=
  match s.timer with
  | none => some (tickFire s)
  | some r =>
    match SnapshotTimer.tick r with
    | none => none
    | some r2 =>
      let s1 := { s with timer := some r2 }
      if r2 = 0 then some (tickFire s1)
      else some { s1 with overlayText := toString r2 }

/-- A user toggle of the snapshot button: flips the button and invokes
the handler with the matching state, loading the timer length from the
settings at that moment. -/
def onToggle (timerLength : Nat) (s : TimerAppState) : TimerAppState :=
  let active := !s.snapshotActive
  let s1 := { s with snapshotActive := active }
  onSnapshotStateChanged timerLength
    (if active then SnapshotState.TimerRunning else SnapshotState.Idle) s1

/-- External events driving the snapshot timer subsystem. -/
inductive TimerEvent
  | toggle (timerLength : Nat)
  | tick
deriving DecidableEq, Repr

/-- One step of the snapshot timer subsystem; none is a panic (the tick
assertion failing). -/
def timerStep (s : TimerAppState) : TimerEvent → Option TimerAppState
  | TimerEvent.toggle len => some (onToggle len s)
  | TimerEvent.tick => onTick s

/-- Run a sequence of toggle and tick events; none as soon as any step
panics. -/
def timerRun (s : TimerAppState) : List TimerEvent → Option TimerAppState
  | [] => some s
  | e :: es =>
    match timerStep s e with
    | none => none
    | some s2 => timerRun s2 es

/-- The application's initial snapshot-side state (src/app.rs lines
183-189: timer starts as RefCell None, overlay hidden, toggle unchecked). -/
def initialTimerAppState : TimerAppState :=
  { timer := none, overlayVisible := false, overlayText := "",
    snapshotActive := false, snapshotsTaken := 0,
    timersCreated := 0, overlayShownCount := 0 }

/-- The invariant keeping the tick assertion alive: a stored timer always
has a strictly positive remaining count. -/
def TimerInv (s : TimerAppState) : Prop :=
  ∀ r, s.timer = some r → 1 ≤ r

/-- Modelled from the spec: the persisted configuration record is "a
structured key-value document, e.g. TOML" (section 6), written and read
back by the external serde machinery invoked in save_settings and
load_settings (src/utils.rs lines 18-62), which is not part of this
repository.  A value of the document is a string or an integer. -/
inductive TomlValue
  | str (s : String)
  | int (n : Nat)
deriving DecidableEq, Repr

/-- Modelled from the spec: the serialized form of Settings, one key per
Rust field (derived Serialize on src/settings.rs lines 77-90), with the
unit enum variants stored by name and the paths stored as strings. -/
def encodeSettings (s : Settings) : List (String × TomlValue) :=
  [("snapshot_directory", TomlValue.str s.snapshot_directory),
   ("snapshot_format", TomlValue.str
      (match s.snapshot_format with
       | SnapshotFormat.JPEG => "JPEG"
       | SnapshotFormat.PNG => "PNG")),
   ("timer_length", TomlValue.int s.timer_length),
   ("record_directory", TomlValue.str s.record_directory),
   ("record_format", TomlValue.str
      (match s.record_format with
       | RecordFormat.H264Mp4 => "H264Mp4"
       | RecordFormat.Vp8WebM => "Vp8WebM"))]

/-- Key lookup in the document. -/
def findVal : List (String × TomlValue) → String → Option TomlValue
  | [], _ => none
  | (k, v) :: rest, key => if k = key then some v else findVal rest key

/-- Read a string value. -/
def asStr : Option TomlValue → Option String
  | some (TomlValue.str s) => some s
  | _ => none

/-- Read an integer value. -/
def asInt : Option TomlValue → Option Nat
  | some (TomlValue.int n) => some n
  | _ => none

/-- Parse a snapshot format variant name (derived Deserialize). -/
def parseSnapshotFormat : Option String → Option SnapshotFormat
  | some "JPEG" => some SnapshotFormat.JPEG
  | some "PNG" => some SnapshotFormat.PNG
  | _ => none

/-- Parse a record format variant name (derived Deserialize). -/
def parseRecordFormat : Option String → Option RecordFormat
  | some "H264Mp4" => some RecordFormat.H264Mp4
  | some "Vp8WebM" => some RecordFormat.Vp8WebM
  | _ => none

/-- Modelled from the spec: reading the configuration record back into a
Settings value (derived Deserialize used by load_settings); any missing
key, wrong type or unknown variant is a parse failure. -/
def decodeSettings (doc : List (String × TomlValue)) : Option Settings :=
  match asStr (findVal doc "snapshot_directory"),
        parseSnapshotFormat (asStr (findVal doc "snapshot_format")),
        asInt (findVal doc "timer_length"),
        asStr (findVal doc "record_directory"),
        parseRecordFormat (asStr (findVal doc "record_format")) with
  | some sd, some sf, some tl, some rd, some rf =>
    some { snapshot_directory := sd, snapshot_format := sf, timer_length := tl,
           record_directory := rd, record_format := rf }
  | _, _, _, _, _ => none

/-- A concrete settings value used by the concrete-input theorems. -/
def sampleSettings : Settings :=
  { snapshot_directory := "/tmp/pics", snapshot_format := SnapshotFormat.JPEG,
    timer_length := 3,
    record_directory := "/tmp/videos", record_format := RecordFormat.H264Mp4 }

/-- A concrete timestamp used by the concrete-input theorems. -/
def sampleNow : DateTime :=
  { year := 2018, month := 5, day := 26, hour := 13, minute := 37, second := 42 }

/-- C5 counterexample: at a concrete timestamp the snapshot file name the
code builds separates the time components with dashes, not with the colons
the claim states, so the name is not "Snapshot YYYY-MM-DD HH:MM:SS.jpg". -/
theorem filename_time_separator_cex :
    snapshot_filename sampleSettings sampleNow = "/tmp/pics/Snapshot 2018-05-26 13-37-42.jpg"
    ∧ spec_snapshot_filename sampleSettings sampleNow
        = "/tmp/pics/Snapshot 2018-05-26 13:37:42.jpg"
    ∧ snapshot_filename sampleSettings sampleNow
        ≠ spec_snapshot_filename sampleSettings sampleNow :=
  ⟨rfl, rfl, by decide⟩

/-- C5 (amended): for every settings value and timestamp, the snapshot
file is named "Snapshot YYYY-MM-DD HH-MM-SS.EXT" and the recording file
"Recording YYYY-MM-DD HH-MM-SS.EXT", with dashes between the time
components, placed in the configured snapshot respectively record
directory; the extension is jpg for JPEG, png for PNG, mp4 for H264/MP4
and webm for VP8/WebM. -/
theorem output_filenames_format (settings : Settings) (now : DateTime) :
    snapshot_filename settings now =
      pathPush settings.snapshot_directory
        (("Snapshot " ++ (pad4 now.year ++ ("-" ++ (pad2 now.month ++ ("-" ++ (pad2 now.day ++
          (" " ++ (pad2 now.hour ++ ("-" ++ (pad2 now.minute ++ ("-" ++ pad2 now.second)))))))))))
          ++ "." ++ snapshot_extension settings.snapshot_format)
    ∧ recording_filename settings now =
      pathPush settings.record_directory
        (("Recording " ++ (pad4 now.year ++ ("-" ++ (pad2 now.month ++ ("-" ++ (pad2 now.day ++
          (" " ++ (pad2 now.hour ++ ("-" ++ (pad2 now.minute ++ ("-" ++ pad2 now.second)))))))))))
          ++ "." ++ record_extension settings.record_format)
    ∧ snapshot_extension SnapshotFormat.JPEG = "jpg"
    ∧ snapshot_extension SnapshotFormat.PNG = "png"
    ∧ record_extension RecordFormat.H264Mp4 = "mp4"
    ∧ record_extension RecordFormat.Vp8WebM = "webm" := by
  refine ⟨?_, ?_, rfl, rfl, rfl, rfl⟩
  · unfold snapshot_filename
    rw [strftime_snapshot_eq]
  · unfold recording_filename
    rw [strftime_recording_eq]

/-- C7: take_snapshot with no last sample available returns Ok, creates no
file, posts no warning and has no other visible effect. -/
theorem take_snapshot_no_sample_noop (env : SnapEnv) (settings : Settings) (now : DateTime)
    (h : env.lastSample = false) :
    Pipeline.take_snapshot env settings now = (Except.ok (), []) := by
  unfold Pipeline.take_snapshot
  rw [h]
  simp

/-- C7 witness: the no-sample no-op at a concrete environment. -/
theorem take_snapshot_no_sample_noop_witness :
    ({ lastSample := false, fileCreateOk := true, convertOk := true, writeOk := true } :
        SnapEnv).lastSample = false
    ∧ Pipeline.take_snapshot
        { lastSample := false, fileCreateOk := true, convertOk := true, writeOk := true }
        sampleSettings sampleNow = (Except.ok (), []) :=
  ⟨rfl, take_snapshot_no_sample_noop _ sampleSettings sampleNow rfl⟩

/-- C4 counterexample: at a concrete input whose sample conversion fails,
take_snapshot has already created the destination file before requesting
the conversion, so a file is created even though conversion fails,
contradicting the claim that the file is opened only after conversion
succeeds and that no file is created on conversion failure. -/
theorem snapshot_file_created_before_conversion_cex :
    (Pipeline.take_snapshot
        { lastSample := true, fileCreateOk := true, convertOk := false, writeOk := true }
        sampleSettings sampleNow).2 =
      [SnapEffect.fileCreated "/tmp/pics/Snapshot 2018-05-26 13-37-42.jpg",
       SnapEffect.conversionRequested,
       SnapEffect.busWarning "Failed to convert sample"]
    ∧ ({ lastSample := true, fileCreateOk := true, convertOk := false, writeOk := true } :
        SnapEnv).convertOk = false :=
  ⟨rfl, rfl⟩

/-- C4 (amended): when a sample is available, take_snapshot creates the
destination file first and only then requests the asynchronous
conversion; the converted bytes are written only when conversion
succeeds; on conversion failure or write failure a non-fatal warning is
posted via the bus instead of aborting; a file-create failure is returned
as an error to the caller and nothing else happens. -/
theorem take_snapshot_file_then_convert (env : SnapEnv) (settings : Settings) (now : DateTime)
    (hs : env.lastSample = true) :
    (env.fileCreateOk = false →
      Pipeline.take_snapshot env settings now =
        (Except.error ("Failed to create snapshot file " ++ snapshot_filename settings now), []))
    ∧ (env.fileCreateOk = true →
      (Pipeline.take_snapshot env settings now).1 = Except.ok ()
      ∧ (Pipeline.take_snapshot env settings now).2.take 2 =
          [SnapEffect.fileCreated (snapshot_filename settings now),
           SnapEffect.conversionRequested]
      ∧ (env.convertOk = false →
          (Pipeline.take_snapshot env settings now).2 =
            [SnapEffect.fileCreated (snapshot_filename settings now),
             SnapEffect.conversionRequested,
             SnapEffect.busWarning "Failed to convert sample"])
      ∧ (env.convertOk = true → env.writeOk = false →
          (Pipeline.take_snapshot env settings now).2 =
            [SnapEffect.fileCreated (snapshot_filename settings now),
             SnapEffect.conversionRequested,
             SnapEffect.busWarning
               ("Failed to write snapshot file " ++ snapshot_filename settings now)])
      ∧ (env.convertOk = true → env.writeOk = true →
          (Pipeline.take_snapshot env settings now).2 =
            [SnapEffect.fileCreated (snapshot_filename settings now),
             SnapEffect.conversionRequested,
             SnapEffect.fileWritten (snapshot_filename settings now)])) := by
  unfold Pipeline.take_snapshot
  rw [hs]
  cases hc : env.fileCreateOk <;> cases ho : env.convertOk <;> cases hw : env.writeOk <;>
    simp

/-- C4 witness: the amended description evaluated at a concrete
all-succeeding environment. -/
theorem take_snapshot_file_then_convert_witness :
    ({ lastSample := true, fileCreateOk := true, convertOk := true, writeOk := true } :
        SnapEnv).lastSample = true
    ∧ (Pipeline.take_snapshot
        { lastSample := true, fileCreateOk := true, convertOk := true, writeOk := true }
        sampleSettings sampleNow).1 = Except.ok () :=
  ⟨rfl,
    ((take_snapshot_file_then_convert
      { lastSample := true, fileCreateOk := true, convertOk := true, writeOk := true }
      sampleSettings sampleNow rfl).2 rfl).1⟩

/-- A pipeline state in which one recording branch is live: the bin is
added, Playing, linked, and stored in the recording_bin slot. -/
def liveRecordingState : PipelineState :=
  { bins := [{ id := 0, gstState := GstState.Playing,
               location := "/tmp/videos/Recording 2018-05-26 13-00-00.mp4",
               linkedToTee := true }],
    recordingBin := some 0, pendingIdleProbe := [], pendingEos := [],
    eosQueued := [], nextId := 1 }

/-- C1 counterexample: calling Pipeline::start_recording of the newer
revision while a recording branch already exists succeeds, adds a second
bin to the pipeline (branch count 2, not at most 1) and silently
overwrites the stored recording_bin slot; there is no guard, no
AlreadyRecording feedback and no toggle reset. -/
theorem start_recording_second_branch_cex :
    (Pipeline.start_recording { parseOk := true, playOk := true, linkOk := true }
        sampleSettings sampleNow liveRecordingState).1 = Except.ok ()
    ∧ (Pipeline.start_recording { parseOk := true, playOk := true, linkOk := true }
        sampleSettings sampleNow liveRecordingState).2.1.bins.length = 2
    ∧ ¬ (Pipeline.start_recording { parseOk := true, playOk := true, linkOk := true }
        sampleSettings sampleNow liveRecordingState).2.1.bins.length ≤ 1
    ∧ (Pipeline.start_recording { parseOk := true, playOk := true, linkOk := true }
        sampleSettings sampleNow liveRecordingState).2.1.recordingBin = some 1 :=
  ⟨rfl, rfl, by decide, rfl⟩

/-- C1 (amended): only the older revision's App::start_recording
(src/gstreamer.rs) guards against an existing branch: when the pipeline
already contains a record-bin it creates no second branch, leaves the
pipeline unchanged and resets the record toggle, so its branch count
never exceeds one; the newer revision's Pipeline::start_recording
(src/pipeline.rs) performs no such check and will attach a second branch
(see the counterexample). -/
theorem gst_start_recording_single_branch (env : StartEnv) (settings : Settings)
    (now : DateTime) (s : GstAppState) (hone : s.bins.length ≤ 1) :
    (GstApp.start_recording env settings now s).bins.length ≤ 1
    ∧ (s.hasPipeline = true → s.bins ≠ [] →
        (GstApp.start_recording env settings now s).bins = s.bins
        ∧ (GstApp.start_recording env settings now s).recordButtonChecked = false) := by
  unfold GstApp.start_recording
  cases hp : s.hasPipeline
  · simp [hone]
  · cases hb : s.bins with
    | nil =>
      cases h1 : env.parseOk <;> cases h2 : env.playOk <;> cases h3 : env.linkOk <;>
        simp [hb, hone]
    | cons b bs =>
      rw [hb] at hone
      simp only [List.length_cons] at hone
      have hbs : bs = [] := List.eq_nil_of_length_eq_zero (by omega)
      subst hbs
      simp [hp, hb]

/-- C1 witness: the older revision's guard at a concrete state with one
live record-bin. -/
theorem gst_start_recording_single_branch_witness :
    ({ hasPipeline := true,
       bins := [{ id := 0, gstState := GstState.Playing, location := "/tmp/videos/r.mp4",
                  linkedToTee := true }],
       recordButtonChecked := true, pendingIdleProbe := [], nextId := 1 } :
        GstAppState).bins.length ≤ 1
    ∧ (GstApp.start_recording { parseOk := true, playOk := true, linkOk := true }
        sampleSettings sampleNow
        { hasPipeline := true,
          bins := [{ id := 0, gstState := GstState.Playing, location := "/tmp/videos/r.mp4",
                     linkedToTee := true }],
          recordButtonChecked := true, pendingIdleProbe := [], nextId := 1 }).bins.length ≤ 1 :=
  ⟨by decide,
    (gst_start_recording_single_branch { parseOk := true, playOk := true, linkOk := true }
      sampleSettings sampleNow
      { hasPipeline := true,
        bins := [{ id := 0, gstState := GstState.Playing, location := "/tmp/videos/r.mp4",
                   linkedToTee := true }],
        recordButtonChecked := true, pendingIdleProbe := [], nextId := 1 }
      (by decide)).1⟩

/-- C2: stop_recording never touches the set of bins in the pipeline (the
branch is not removed synchronously and no state is set to Null by it),
and across every event of the recording subsystem a bin present in the
pipeline disappears from it only through the delivery of the forwarded
end-of-stream message whose source is that very bin; the event alphabet
contains no timeout, so no removal is ever timeout driven. -/
theorem stop_recording_bins (p : PipelineState) :
    (Pipeline.stop_recording p).bins = p.bins := by
  unfold Pipeline.stop_recording
  split
  · rfl
  · split
    · rfl
    · split <;> rfl

theorem start_recording_mem (env : StartEnv) (settings : Settings) (now : DateTime)
    (p : PipelineState) (b : RecBin) (hbmem : b ∈ p.bins) :
    b ∈ (Pipeline.start_recording env settings now p).2.1.bins := by
  unfold Pipeline.start_recording
  cases h1 : env.parseOk <;> cases h2 : env.playOk <;> cases h3 : env.linkOk <;>
    simp [h1, h2, h3, hbmem]

theorem branch_removed_only_on_forwarded_eos :
    (∀ p : PipelineState,
      (recStep p RecEvent.stopRec).1.bins = p.bins ∧ (recStep p RecEvent.stopRec).2 = [])
    ∧ (∀ (p : PipelineState) (e : RecEvent) (id : Nat),
        hasBin p id → ¬ hasBin (recStep p e).1 id → e = RecEvent.eosForwarded id) := by
  constructor
  · intro p
    exact ⟨stop_recording_bins p, rfl⟩
  · intro p e id hin hout
    rcases hin with ⟨b, hbmem, hbid⟩
    cases e with
    | startRec env settings now =>
      exact absurd ⟨b, start_recording_mem env settings now p b hbmem, hbid⟩ hout
    | stopRec =>
      refine absurd ⟨b, ?_, hbid⟩ hout
      show b ∈ (Pipeline.stop_recording p).bins
      rw [stop_recording_bins p]
      exact hbmem
    | idleProbe i =>
      refine absurd ?_ hout
      simp only [recStep]
      split
      · refine ⟨if b.id = i then { b with linkedToTee := false } else b, ?_, ?_⟩
        · exact List.mem_map.mpr ⟨b, hbmem, rfl⟩
        · by_cases hbi : b.id = i
          · rw [if_pos hbi]
            exact hbid
          · rw [if_neg hbi]
            exact hbid
      · exact ⟨b, hbmem, hbid⟩
    | asyncEos i =>
      refine absurd ?_ hout
      simp only [recStep]
      split
      · exact ⟨b, hbmem, hbid⟩
      · exact ⟨b, hbmem, hbid⟩
    | eosForwarded i =>
      by_cases hii : i = id
      · rw [hii]
      · refine absurd ?_ hout
        simp only [recStep]
        split
        · refine ⟨b, ?_, hbid⟩
          refine List.mem_filter.mpr ⟨hbmem, ?_⟩
          simp only [hbid]
          simp [Ne.symm hii]
        · exact ⟨b, hbmem, hbid⟩

/-- C2 witness: in a concrete draining state the bin vanishes exactly at
the forwarded end-of-stream event for it. -/
theorem branch_removed_only_on_forwarded_eos_witness :
    hasBin
      { bins := [{ id := 0, gstState := GstState.Playing, location := "/tmp/videos/r.mp4",
                   linkedToTee := false }],
        recordingBin := none, pendingIdleProbe := [], pendingEos := [],
        eosQueued := [0], nextId := 1 } 0
    ∧ ¬ hasBin (recStep
        { bins := [{ id := 0, gstState := GstState.Playing, location := "/tmp/videos/r.mp4",
                     linkedToTee := false }],
          recordingBin := none, pendingIdleProbe := [], pendingEos := [],
          eosQueued := [0], nextId := 1 } (RecEvent.eosForwarded 0)).1 0
    ∧ RecEvent.eosForwarded 0 = RecEvent.eosForwarded 0 :=
  ⟨by decide, by decide,
    branch_removed_only_on_forwarded_eos.2
      { bins := [{ id := 0, gstState := GstState.Playing, location := "/tmp/videos/r.mp4",
                   linkedToTee := false }],
        recordingBin := none, pendingIdleProbe := [], pendingEos := [],
        eosQueued := [0], nextId := 1 }
      (RecEvent.eosForwarded 0) 0 (by decide) (by decide)⟩

/-- C3: whenever Pipeline::start_recording fails (bin build failure,
sub-graph start failure or pad link failure) while no recording branch is
stored, the app-layer record handler ends with the pipeline's bins exactly
as before (any partially attached branch was removed again), the stored
recording-branch slot still absent, the record toggle reset and one more
error dialog shown; in the link-failure case the torn-down bin is both
removed from the pipeline and set to Null. -/
theorem start_recording_failure_rollback (env : StartEnv) (settings : Settings)
    (now : DateTime) (a : AppRecState)
    (hfail : env.parseOk = false ∨ env.playOk = false ∨ env.linkOk = false)
    (habs : a.p.recordingBin = none) :
    (App.on_record_state_changed env settings now true a).1.p.bins = a.p.bins
    ∧ (App.on_record_state_changed env settings now true a).1.p.recordingBin = none
    ∧ (App.on_record_state_changed env settings now true a).1.recordActive = false
    ∧ (App.on_record_state_changed env settings now true a).1.dialogs.length
        = a.dialogs.length + 1
    ∧ (env.parseOk = true → env.playOk = true →
        (App.on_record_state_changed env settings now true a).2 =
          [RecEffect.binRemoved a.p.nextId, RecEffect.binSetNull a.p.nextId]) := by
  unfold App.on_record_state_changed Pipeline.start_recording App.set_record_inactive
    Pipeline.stop_recording
  rcases hfail with h | h | h <;>
    cases h1 : env.parseOk <;> cases h2 : env.playOk <;> cases h3 : env.linkOk <;>
      simp_all [habs] <;> cases ha : a.recordActive <;> simp_all [habs]

/-- C3 witness: the rollback at a concrete link failure. -/
theorem start_recording_failure_rollback_witness :
    ({ parseOk := true, playOk := true, linkOk := false } : StartEnv).linkOk = false
    ∧ ({ p := { bins := [], recordingBin := none, pendingIdleProbe := [], pendingEos := [],
                eosQueued := [], nextId := 0 },
         recordActive := true, dialogs := [] } : AppRecState).p.recordingBin = none
    ∧ (App.on_record_state_changed { parseOk := true, playOk := true, linkOk := false }
        sampleSettings sampleNow true
        { p := { bins := [], recordingBin := none, pendingIdleProbe := [], pendingEos := [],
                 eosQueued := [], nextId := 0 },
          recordActive := true, dialogs := [] }).1.recordActive = false :=
  ⟨rfl, rfl,
    (start_recording_failure_rollback { parseOk := true, playOk := true, linkOk := false }
      sampleSettings sampleNow
      { p := { bins := [], recordingBin := none, pendingIdleProbe := [], pendingEos := [],
               eosQueued := [], nextId := 0 },
        recordActive := true, dialogs := [] }
      (Or.inr (Or.inr rfl)) rfl).2.2.1⟩

/-- C6: calling stop_recording with no recording branch present: in the
older revision (src/gstreamer.rs App::stop_recording) the record-bin
lookup result is unwrapped with expect, so the call panics with the
message "Pipeline had no recording bin" instead of being a silent no-op
as both the claim and the function's own comment describe; the newer
revision (src/pipeline.rs Pipeline::stop_recording) implements the
silent no-op, returning the state unchanged. -/
theorem stop_recording_no_branch_behavior :
    (GstApp.stop_recording
        { hasPipeline := true, bins := [], recordButtonChecked := false,
          pendingIdleProbe := [], nextId := 0 }).1
      = StopOutcome.panics "Pipeline had no recording bin"
    ∧ Pipeline.stop_recording
        { bins := [], recordingBin := none, pendingIdleProbe := [], pendingEos := [],
          eosQueued := [], nextId := 0 }
      = { bins := [], recordingBin := none, pendingIdleProbe := [], pendingEos := [],
          eosQueued := [], nextId := 0 } :=
  ⟨rfl, rfl⟩

/-- C8: activating the snapshot control with a configured timer length of
zero never enters the counting state (no snapshot timer is created and
the countdown overlay is never shown), invokes take_snapshot exactly
once, and programmatically resets the snapshot toggle to its un-pressed
state (which also leaves no timer and a hidden overlay behind). -/
theorem zero_timer_snapshot_immediate (s : TimerAppState) (h : s.snapshotActive = true) :
    (onSnapshotStateChanged 0 SnapshotState.TimerRunning s).snapshotsTaken
        = s.snapshotsTaken + 1
    ∧ (onSnapshotStateChanged 0 SnapshotState.TimerRunning s).timersCreated = s.timersCreated
    ∧ (onSnapshotStateChanged 0 SnapshotState.TimerRunning s).overlayShownCount
        = s.overlayShownCount
    ∧ (onSnapshotStateChanged 0 SnapshotState.TimerRunning s).timer = none
    ∧ (onSnapshotStateChanged 0 SnapshotState.TimerRunning s).snapshotActive = false
    ∧ (onSnapshotStateChanged 0 SnapshotState.TimerRunning s).overlayVisible = false := by
  unfold onSnapshotStateChanged setSnapshotInactive onSnapshotIdle
  simp [h]

/-- C8 witness: the zero-length activation from the just-activated
initial state. -/
theorem zero_timer_snapshot_immediate_witness :
    ({ initialTimerAppState with snapshotActive := true } : TimerAppState).snapshotActive = true
    ∧ (onSnapshotStateChanged 0 SnapshotState.TimerRunning
        { initialTimerAppState with snapshotActive := true }).snapshotsTaken
      = ({ initialTimerAppState with snapshotActive := true } : TimerAppState).snapshotsTaken
          + 1 :=
  ⟨rfl,
    (zero_timer_snapshot_immediate { initialTimerAppState with snapshotActive := true } rfl).1⟩

/-- C9: over the enum and integer domains of the settings dialog
(snapshot format JPEG or PNG, record format H264/MP4 or VP8/WebM, timer
length between 0 and 15, arbitrary directory strings), encoding a
Settings value into the persisted key-value document and decoding it
back reproduces identical format, directory and timer values. -/
theorem settings_round_trip (s : Settings) (htimer : s.timer_length ≤ 15) :
    decodeSettings (encodeSettings s) = some s := by
  obtain ⟨sd, sf, tl, rd, rf⟩ := s
  cases sf <;> cases rf <;> rfl

/-- C9 witness: the round trip at a concrete settings value. -/
theorem settings_round_trip_witness :
    sampleSettings.timer_length ≤ 15
    ∧ decodeSettings (encodeSettings sampleSettings) = some sampleSettings :=
  ⟨by decide, settings_round_trip sampleSettings (by decide)⟩

theorem onSnapshotStateChanged_inv (len : Nat) (st : SnapshotState) (s : TimerAppState)
    (hs : TimerInv s) :
    TimerInv (onSnapshotStateChanged len st s) := by
  intro r hr
  cases st with
  | Idle => simp [onSnapshotStateChanged, onSnapshotIdle] at hr
  | TimerRunning =>
    by_cases hl : len = 0
    · unfold onSnapshotStateChanged setSnapshotInactive onSnapshotIdle at hr
      rw [if_pos hl] at hr
      cases ha : s.snapshotActive <;> simp [ha] at hr
      exact hs r hr
    · unfold onSnapshotStateChanged at hr
      rw [if_neg hl] at hr
      simp at hr
      omega

theorem onToggle_inv (len : Nat) (s : TimerAppState) (hs : TimerInv s) :
    TimerInv (onToggle len s) :=
  onSnapshotStateChanged_inv len _ { s with snapshotActive := !s.snapshotActive }
    (fun r hr => hs r hr)

theorem onTick_inv (s : TimerAppState) (hs : TimerInv s) :
    ∃ s2, onTick s = some s2 ∧ TimerInv s2 := by
  cases ht : s.timer with
  | none =>
    refine ⟨tickFire s, ?_, ?_⟩
    · simp only [onTick, ht]
    · intro r hr
      unfold tickFire setSnapshotInactive onSnapshotIdle at hr
      cases ha : s.snapshotActive <;> simp [ha] at hr
  | some rem =>
    have hrem : 1 ≤ rem := hs rem ht
    have htick : SnapshotTimer.tick rem = some (rem - 1) := by
      unfold SnapshotTimer.tick
      rw [if_pos (by omega)]
    by_cases hz : rem - 1 = 0
    · refine ⟨tickFire { s with timer := some (rem - 1) }, ?_, ?_⟩
      · simp only [onTick, ht, htick, if_pos hz]
      · intro r hr
        unfold tickFire setSnapshotInactive onSnapshotIdle at hr
        cases ha : s.snapshotActive <;> simp [ha] at hr
    · refine ⟨{ s with timer := some (rem - 1), overlayText := toString (rem - 1) }, ?_, ?_⟩
      · simp only [onTick, ht, htick, if_neg hz]
      · intro r hr
        simp at hr
        omega

theorem timerRun_safe (evs : List TimerEvent) :
    ∀ s : TimerAppState, TimerInv s → (timerRun s evs).isSome = true := by
  induction evs with
  | nil =>
    intro s _
    rfl
  | cons e es ih =>
    intro s hs
    cases e with
    | toggle len =>
      show (timerRun (onToggle len s) es).isSome = true
      exact ih (onToggle len s) (onToggle_inv len s hs)
    | tick =>
      obtain ⟨s2, hstep, hinv⟩ := onTick_inv s hs
      show (match onTick s with
            | none => none
            | some s3 => timerRun s3 es).isSome = true
      rw [hstep]
      exact ih s2 hinv

/-- C10: starting from the application's initial state, no sequence of
snapshot toggle events (with any per-event timer length from the
settings) and timer ticks can make the assertion in SnapshotTimer::tick
fail: a timer is only ever stored with a positive remaining count, each
tick decrements it by one and removes it when it reaches zero, and a tick
without a stored timer substitutes zero instead of calling tick, so every
run completes without a panic. -/
theorem snapshot_timer_assert_never_fails (evs : List TimerEvent) :
    (timerRun initialTimerAppState evs).isSome = true :=
  timerRun_safe evs initialTimerAppState (by intro r hr ; simp [initialTimerAppState] at hr)

end WebCam
